import Mathlib

/-!
Verification development for the PropChain rate-limiting / API-quota core.

The repository ships the Jest test suites for `RateLimitingService` and
`ApiQuotaService` but not the service sources themselves, so the service
operations below are modelled from the specification (each such definition's
doc comment says so).  The pagination DTO is embedded directly from
`src/common/pagination/pagination.dto.ts`.
-/

namespace PropChain

/- ## WindowLimiter (RateLimitingService) -/

/-- Modelled from the spec: `RateLimitConfig` policy record
`{windowMs, maxRequests}` supplied per call site (§3). -/
structure RateLimitConfig where
  windowMs : Int
  maxRequests : Nat
deriving Repr, DecidableEq

/-- Modelled from the spec: the value produced by the atomic server-side
script (`redis.eval`) — decision plus metadata (§4.1 step 5). -/
structure ScriptResult where
  allowed : Bool
  remaining : Nat
  resetTime : Int
  totalRequests : Nat
deriving Repr, DecidableEq

/-- Modelled from the spec: result record of `checkRateLimit` (§4.1). -/
structure RateLimitResult where
  allowed : Bool
  remaining : Nat
  limit : Nat
  window : Int
  resetTime : Int
  totalRequests : Nat
deriving Repr, DecidableEq

/-- Modelled from the spec: the atomic read-check-increment executed by the
store as one indivisible operation (§4.1 steps 2-4).  Input is the current
window count; output is the admission decision and the new count.  The count
is only changed here, never by separate read+write round trips. -/
def rateLimitStep (maxRequests count : Nat) : Bool × Nat :=
  if count < maxRequests then (true, count + 1) else (false, count)

/-- Modelled from the spec: N `checkRateLimit` calls on one key inside one
window.  The atomic script is the sole serialization point (§5), so any
concurrent execution is equivalent to this sequential iteration of
`rateLimitStep`.  Returns (final count, number of admitted calls). -/
def runRateLimitCalls (maxRequests : Nat) : Nat → Nat → Nat × Nat
  | 0, count => (count, 0)
  | n + 1, count =>
    let step := rateLimitStep maxRequests count
    let rest := runRateLimitCalls maxRequests n step.2
    (rest.1, (if step.1 then 1 else 0) + rest.2)

/-- Modelled from the spec: `checkRateLimit(key, config)` (§4.1).  The store
interaction is abstracted as the outcome of the atomic script execution:
`.ok r` when the script ran, `.error e` when the store was unreachable or the
script failed.  On failure the service fails open: `allowed=true`,
`remaining=0`, with `limit`/`window` taken from the input config. -/
def checkRateLimit (now : Int) (config : RateLimitConfig)
    (evalOutcome : Except String ScriptResult) : RateLimitResult :=
  match evalOutcome with
  | .ok r =>
    { allowed := r.allowed, remaining := r.remaining, limit := config.maxRequests,
      window := config.windowMs, resetTime := r.resetTime,
      totalRequests := r.totalRequests }
  | .error _ =>
    { allowed := true, remaining := 0, limit := config.maxRequests,
      window := config.windowMs, resetTime := now + config.windowMs,
      totalRequests := 0 }

/-- Modelled from the spec: window-counter key `rate_limit:<key>` (§6). -/
def generateKey (identifier : String) : String :=
  "rate_limit:" ++ identifier

/- ## Calendar model (UTC civil dates) -/

/-- Modelled from the spec: an instant, split into its UTC calendar date and
the milliseconds elapsed since that day's UTC midnight (§4.2: day/month
comparisons are calendar-based in UTC). -/
structure DateTime where
  year : Int
  month : Nat
  day : Nat
  msOfDay : Nat
deriving Repr, DecidableEq

/-- Modelled from the spec: calendar-day equality — compares only the date
portion (year, month, day), never elapsed duration (§4.2). -/
def isSameDay (a b : DateTime) : Bool :=
  a.year == b.year && a.month == b.month && a.day == b.day

/-- Modelled from the spec: calendar-month equality (year and month). -/
def isSameMonth (a b : DateTime) : Bool :=
  a.year == b.year && a.month == b.month

/-- Days between a civil UTC date and 1970-01-01 (proleptic Gregorian,
standard civil-from-days arithmetic).  Used only to relate calendar dates to
elapsed real time. -/
def daysFromCivil (dt : DateTime) : Int :=
  let y : Int := if dt.month ≤ 2 then dt.year - 1 else dt.year
  let m : Int := dt.month
  let d : Int := dt.day
  let era : Int := (if 0 ≤ y then y else y - 399) / 400
  let yoe : Int := y - era * 400
  let doy : Int := (153 * (if 2 < m then m - 3 else m + 9) + 2) / 5 + d - 1
  let doe : Int := yoe * 365 + yoe / 4 - yoe / 100 + doy
  era * 146097 + doe - 719468

/-- Milliseconds since the UNIX epoch of an instant. -/
def epochMs (dt : DateTime) : Int :=
  daysFromCivil dt * 86400000 + dt.msOfDay

/- ## QuotaTracker (ApiQuotaService) -/

/-- Modelled from the spec: the per-caller `QuotaConfig` record stored at
`api_quota:config:<apiKeyId>` (§3). -/
structure QuotaConfig where
  dailyLimit : Nat
  monthlyLimit : Nat
  currentDailyUsage : Nat
  currentMonthlyUsage : Nat
  lastReset : DateTime
deriving Repr, DecidableEq

/-- Modelled from the spec: the implicit zero-limit default created when no
config is stored for a caller — zero meaning unlimited/unchecked (§4.2). -/
def defaultQuotaConfig (now : DateTime) : QuotaConfig :=
  { dailyLimit := 0, monthlyLimit := 0, currentDailyUsage := 0,
    currentMonthlyUsage := 0, lastReset := now }

/-- Modelled from the spec: result record of `hasAvailableQuota` (§4.2). -/
structure QuotaCheckResult where
  hasQuota : Bool
  quota : QuotaConfig
  reason : Option String
deriving Repr, DecidableEq

/-- Modelled from the spec: `hasAvailableQuota(key)` (§4.2).  The store read
of the config record is abstracted as `read`: `.error` when the store is
unreachable (fail open), `.ok none` when no config is stored (implicit
zero-limit default), `.ok (some q)` otherwise.  The daily ceiling is
evaluated first, so its reason takes precedence; a zero limit disables the
corresponding check. -/
def hasAvailableQuota (now : DateTime)
    (read : Except String (Option QuotaConfig)) : QuotaCheckResult :=
  match read with
  | .error _ => { hasQuota := true, quota := defaultQuotaConfig now, reason := none }
  | .ok stored =>
    let q := stored.getD (defaultQuotaConfig now)
    if 0 < q.dailyLimit ∧ q.dailyLimit ≤ q.currentDailyUsage then
      { hasQuota := false, quota := q, reason := some "Daily quota exceeded" }
    else if 0 < q.monthlyLimit ∧ q.monthlyLimit ≤ q.currentMonthlyUsage then
      { hasQuota := false, quota := q, reason := some "Monthly quota exceeded" }
    else
      { hasQuota := true, quota := q, reason := none }

/-- Modelled from the spec: the rollover step of `recordUsage` (§4.2) — if
`lastReset` is not the same calendar day as `now`, reset the daily counter to
0; if not the same calendar month, reset the monthly counter to 0. -/
def applyRollover (now : DateTime) (q : QuotaConfig) : QuotaConfig :=
  let q1 := if isSameDay q.lastReset now then q else { q with currentDailyUsage := 0 }
  if isSameMonth q.lastReset now then q1 else { q1 with currentMonthlyUsage := 0 }

/-- Modelled from the spec: `recordUsage(key, userId)` (§4.2) — apply the
calendar rollover, then increment both the daily and the monthly counter by
one and stamp `lastReset` with the current time. -/
def recordUsage (now : DateTime) (q : QuotaConfig) : QuotaConfig :=
  let r := applyRollover now q
  { r with currentDailyUsage := r.currentDailyUsage + 1,
           currentMonthlyUsage := r.currentMonthlyUsage + 1,
           lastReset := now }

/-- Modelled from the spec: `validateQuotaLimits(dailyLimit, monthlyLimit)`
(§4.2) — the three checks in their fixed order; the first violated one
determines the reported message. -/
def validateQuotaLimits (dailyLimit monthlyLimit : Int) : Except String Unit :=
  if dailyLimit ≤ 0 then .error "Daily limit must be greater than 0"
  else if monthlyLimit ≤ 0 then .error "Monthly limit must be greater than 0"
  else if monthlyLimit < dailyLimit then .error "Daily limit cannot exceed monthly limit"
  else .ok ()

/-- Modelled from the spec: daily-counter key `api_quota:daily:<apiKeyId>` (§6). -/
def getDailyKey (apiKeyId : String) : String :=
  "api_quota:daily:" ++ apiKeyId

/-- Modelled from the spec: monthly-counter key `api_quota:monthly:<apiKeyId>` (§6). -/
def getMonthlyKey (apiKeyId : String) : String :=
  "api_quota:monthly:" ++ apiKeyId

/-- Modelled from the spec: config key `api_quota:config:<apiKeyId>` (§6). -/
def getConfigKey (apiKeyId : String) : String :=
  "api_quota:config:" ++ apiKeyId

/- ## Key-value store model (for reset operations) -/

/-- Modelled from the spec: the external key-value store, reduced to what the
reset path needs — a map from keys to integer counters, plus a reachability
flag modelling "store unreachable" failures (§6, §7). -/
structure KVStore where
  data : String → Option Nat
  reachable : Bool

/-- Modelled from the spec: the store's delete operation; fails when the
store is unreachable, otherwise removes the key. -/
def KVStore.del (s : KVStore) (key : String) : Except String KVStore :=
  if s.reachable then
    .ok { s with data := fun k => if k = key then none else s.data k }
  else
    .error "Redis error"

/-- Modelled from the spec: `resetQuota(key)` (§4.2) — deletes both the daily
and the monthly counter key; store errors are swallowed, so the operation
always resolves without throwing (`.ok`). -/
def resetQuota (s : KVStore) (apiKeyId : String) : Except String KVStore :=
  match (do
      let s1 ← s.del (getDailyKey apiKeyId)
      s1.del (getMonthlyKey apiKeyId) : Except String KVStore) with
  | .ok s2 => .ok s2
  | .error _ => .ok s

/- ## Usage statistics -/

/-- Modelled from the spec: one entry of `getQuotaUsageStats` output (§4.2). -/
structure UsageStats where
  apiKeyId : String
  dailyUsagePercent : Nat
  monthlyUsagePercent : Nat
deriving Repr, DecidableEq

/-- Modelled from the spec: `usage/limit*100` rounded to the nearest whole
percentage (round half up, as `Math.round`). -/
def roundPercent (usage limit : Nat) : Nat :=
  (200 * usage + limit) / (2 * limit)

/-- Modelled from the spec: the statistics entry computed for a single key —
percentages from the stored config when one exists, `0` when none does. -/
def statsEntry (store : String → Option QuotaConfig) (k : String) : UsageStats :=
  match store k with
  | some q =>
    { apiKeyId := k,
      dailyUsagePercent := roundPercent q.currentDailyUsage q.dailyLimit,
      monthlyUsagePercent := roundPercent q.currentMonthlyUsage q.monthlyLimit }
  | none => { apiKeyId := k, dailyUsagePercent := 0, monthlyUsagePercent := 0 }

/-- Modelled from the spec: `getQuotaUsageStats(keys[])` (§4.2) — iterates the
input keys in order, appending one entry per key. -/
def getQuotaUsageStats (store : String → Option QuotaConfig) :
    List String → List UsageStats
  | [] => []
  | k :: ks => statsEntry store k :: getQuotaUsageStats store ks

/- ## Pagination DTO (from src/common/pagination/pagination.dto.ts) -/

/-- The raw query as bound by `class-transformer`: each field is absent
(`none`) or carries the supplied value.  Numeric fields sit in `Int` because
`@IsInt` rejects non-integers before any bound is checked. -/
structure PaginationQueryDto where
  page : Option Int
  limit : Option Int
  sortBy : Option String
  sortOrder : Option String
deriving Repr, DecidableEq

/-- A pagination query after validation passed and defaults were applied. -/
structure ValidatedPagination where
  page : Int
  limit : Int
  sortBy : String
  sortOrder : String
deriving Repr, DecidableEq

/-- `@IsOptional() @Min(1) page`: absent is fine, present must be ≥ 1. -/
def pageOk : Option Int → Bool
  | none => true
  | some p => decide (1 ≤ p)

/-- `@IsOptional() @Min(1) @Max(100) limit`. -/
def limitOk : Option Int → Bool
  | none => true
  | some l => decide (1 ≤ l ∧ l ≤ 100)

/-- `@IsOptional() @IsIn(['asc','desc']) sortOrder`. -/
def sortOrderOk : Option String → Bool
  | none => true
  | some s => s == "asc" || s == "desc"

/-- Validation of `PaginationQueryDto`: rejects (returns `none`) when any
supplied field violates its bound — values are never clamped — and otherwise
fills the class-property defaults `page = 1`, `limit = 10`,
`sortBy = "createdAt"`, `sortOrder = "desc"` for absent fields. -/
def validatePagination (q : PaginationQueryDto) : Option ValidatedPagination :=
  if pageOk q.page && limitOk q.limit && sortOrderOk q.sortOrder then
    some { page := q.page.getD 1, limit := q.limit.getD 10,
           sortBy := q.sortBy.getD "createdAt", sortOrder := q.sortOrder.getD "desc" }
  else
    none

/- ## Helper lemmas -/

/-- Admission count of N serialized atomic calls starting from an arbitrary
window count: exactly `min N (M - count)` calls are admitted. -/
theorem runRateLimitCalls_admitted (M : Nat) :
    ∀ N count, (runRateLimitCalls M N count).2 = min N (M - count) := by
  intro N
  induction N with
  | zero => intro count; simp [runRateLimitCalls]
  | succ n ih =>
    intro count
    by_cases h : count < M
    · simp [runRateLimitCalls, rateLimitStep, h, ih]
      omega
    · simp [runRateLimitCalls, rateLimitStep, h, ih]
      omega

/-- Appending to a fixed left string is injective. -/
theorem string_append_left_cancel (p a b : String) (h : p ++ a = p ++ b) :
    a = b := by
  have hd : p.data ++ a.data = p.data ++ b.data := by
    have := congrArg String.data h
    simpa [String.data_append] using this
  have h2 : a.data = b.data := List.append_cancel_left hd
  cases a; cases b
  exact congrArg String.mk h2

/- ## Claim theorems -/

/-- C1: within one window, of N `checkRateLimit` calls on one key with
`maxRequests = M`, exactly `min N M` are admitted, for every N.  The
check-and-increment is the single atomic store operation `rateLimitStep`
(one state transition per call, no separate read and write round trips), and
the service's `allowed` field is exactly the script's decision. -/
theorem checkRateLimit_admits_min (M N : Nat) (now : Int)
    (cfg : RateLimitConfig) (r : ScriptResult) :
    (runRateLimitCalls M N 0).2 = min N M ∧
    (checkRateLimit now cfg (.ok r)).allowed = r.allowed := by
  refine ⟨?_, rfl⟩
  rw [runRateLimitCalls_admitted]
  omega

/-- C2: when the store operation fails, `checkRateLimit` fails open —
`allowed = true`, `remaining = 0`, with `limit` and `window` taken from the
input config — and `hasAvailableQuota` fails open with `hasQuota = true`;
both are total functions of the failure outcome, so the store error is never
propagated as an exception. -/
theorem failOpen_on_store_error (now : Int) (cfg : RateLimitConfig)
    (e : String) (dnow : DateTime) (e2 : String) :
    (checkRateLimit now cfg (.error e)).allowed = true ∧
    (checkRateLimit now cfg (.error e)).remaining = 0 ∧
    (checkRateLimit now cfg (.error e)).limit = cfg.maxRequests ∧
    (checkRateLimit now cfg (.error e)).window = cfg.windowMs ∧
    (hasAvailableQuota dnow (.error e2)).hasQuota = true :=
  ⟨rfl, rfl, rfl, rfl, rfl⟩

/-- C5: `validateQuotaLimits` reports "Daily limit must be greater than 0"
whenever `dailyLimit ≤ 0`, "Monthly limit must be greater than 0" whenever
`dailyLimit > 0` and `monthlyLimit ≤ 0`, and "Daily limit cannot exceed
monthly limit" whenever both are positive and `dailyLimit > monthlyLimit`;
the checks run in that fixed order, and no error is raised when all three
conditions hold. -/
theorem validateQuotaLimits_order (d m : Int) :
    (d ≤ 0 → validateQuotaLimits d m = .error "Daily limit must be greater than 0") ∧
    (0 < d → m ≤ 0 → validateQuotaLimits d m = .error "Monthly limit must be greater than 0") ∧
    (0 < d → 0 < m → m < d → validateQuotaLimits d m = .error "Daily limit cannot exceed monthly limit") ∧
    (0 < d → 0 < m → d ≤ m → validateQuotaLimits d m = .ok ()) := by
  refine ⟨fun h => ?_, fun h1 h2 => ?_, fun h1 h2 h3 => ?_, fun h1 h2 h3 => ?_⟩
  · simp [validateQuotaLimits, h]
  · have hd : ¬d ≤ 0 := by omega
    simp [validateQuotaLimits, hd, h2]
  · have hd : ¬d ≤ 0 := by omega
    have hm : ¬m ≤ 0 := by omega
    simp [validateQuotaLimits, hd, hm, h3]
  · have hd : ¬d ≤ 0 := by omega
    have hm : ¬m ≤ 0 := by omega
    have hlt : ¬m < d := by omega
    simp [validateQuotaLimits, hd, hm, hlt]

/-- C5 witness: the four branches at the spec's concrete inputs. -/
theorem validateQuotaLimits_order_witness :
    validateQuotaLimits 0 30000 = .error "Daily limit must be greater than 0" ∧
    validateQuotaLimits 1000 0 = .error "Monthly limit must be greater than 0" ∧
    validateQuotaLimits 50000 30000 = .error "Daily limit cannot exceed monthly limit" ∧
    validateQuotaLimits 1000 30000 = .ok () :=
  ⟨(validateQuotaLimits_order 0 30000).1 (by decide),
   (validateQuotaLimits_order 1000 0).2.1 (by decide) (by decide),
   (validateQuotaLimits_order 50000 30000).2.2.1 (by decide) (by decide) (by decide),
   (validateQuotaLimits_order 1000 30000).2.2.2 (by decide) (by decide) (by decide)⟩

/-- C7: with no stored `QuotaConfig`, `hasAvailableQuota` creates the
implicit zero-limit default and grants the request: `hasQuota = true`, with
`quota.dailyLimit = 0` and `quota.monthlyLimit = 0` and no denial reason —
the absent-config case is not an error and never denies. -/
theorem hasAvailableQuota_absent_default (now : DateTime) :
    hasAvailableQuota now (.ok none) =
      { hasQuota := true, quota := defaultQuotaConfig now, reason := none } ∧
    (defaultQuotaConfig now).dailyLimit = 0 ∧
    (defaultQuotaConfig now).monthlyLimit = 0 := by
  refine ⟨?_, rfl, rfl⟩
  simp [hasAvailableQuota, defaultQuotaConfig]

/-- C3: with a stored config, `hasAvailableQuota` denies with reason
"Daily quota exceeded" whenever `dailyLimit > 0` and
`currentDailyUsage ≥ dailyLimit` — in particular also when the monthly
ceiling is exceeded at the same time, so the daily reason takes precedence —
and denies with reason "Monthly quota exceeded" whenever `monthlyLimit > 0`,
`currentMonthlyUsage ≥ monthlyLimit`, and the daily ceiling is not hit. -/
theorem hasAvailableQuota_exceeded (now : DateTime) (q : QuotaConfig) :
    (0 < q.dailyLimit → q.dailyLimit ≤ q.currentDailyUsage →
      hasAvailableQuota now (.ok (some q)) =
        { hasQuota := false, quota := q, reason := some "Daily quota exceeded" }) ∧
    (0 < q.monthlyLimit → q.monthlyLimit ≤ q.currentMonthlyUsage →
      ¬(0 < q.dailyLimit ∧ q.dailyLimit ≤ q.currentDailyUsage) →
      hasAvailableQuota now (.ok (some q)) =
        { hasQuota := false, quota := q, reason := some "Monthly quota exceeded" }) := by
  constructor
  · intro h1 h2
    simp [hasAvailableQuota, h1, h2]
  · intro h1 h2 h3
    simp [hasAvailableQuota, h1, h2, h3]

/-- C3 witness: a config with both ceilings exceeded is denied with the daily
reason, and one with only the monthly ceiling exceeded with the monthly
reason. -/
theorem hasAvailableQuota_exceeded_witness :
    hasAvailableQuota ⟨2023, 1, 1, 0⟩
        (.ok (some ⟨1000, 30000, 1000, 30000, ⟨2023, 1, 1, 0⟩⟩)) =
      { hasQuota := false, quota := ⟨1000, 30000, 1000, 30000, ⟨2023, 1, 1, 0⟩⟩,
        reason := some "Daily quota exceeded" } ∧
    hasAvailableQuota ⟨2023, 1, 1, 0⟩
        (.ok (some ⟨1000, 30000, 500, 30000, ⟨2023, 1, 1, 0⟩⟩)) =
      { hasQuota := false, quota := ⟨1000, 30000, 500, 30000, ⟨2023, 1, 1, 0⟩⟩,
        reason := some "Monthly quota exceeded" } :=
  ⟨(hasAvailableQuota_exceeded ⟨2023, 1, 1, 0⟩ _).1 (by decide) (by decide),
   (hasAvailableQuota_exceeded ⟨2023, 1, 1, 0⟩ _).2 (by decide) (by decide) (by decide)⟩

/-- C4: `recordUsage` resets the daily counter to 0 before incrementing when
`lastReset` falls on a different UTC calendar day than now (so the post-call
daily usage is 1), and analogously for the monthly counter on a
calendar-month change; day sameness compares only the date portions, not
elapsed duration — the instants 2023-01-01T23:59:59Z and 2023-01-02T00:00:01Z
are 2000 ms (< 24 h) apart yet count as different days. -/
theorem recordUsage_calendar_rollover :
    (∀ (now : DateTime) (q : QuotaConfig), isSameDay q.lastReset now = false →
        (recordUsage now q).currentDailyUsage = 1) ∧
    (∀ (now : DateTime) (q : QuotaConfig), isSameMonth q.lastReset now = false →
        (recordUsage now q).currentMonthlyUsage = 1) ∧
    (epochMs ⟨2023, 1, 2, 1000⟩ - epochMs ⟨2023, 1, 1, 86399000⟩ = 2000 ∧
     (2000 : Int) < 86400000 ∧
     isSameDay ⟨2023, 1, 1, 86399000⟩ ⟨2023, 1, 2, 1000⟩ = false) := by
  refine ⟨?_, ?_, by decide, by decide, by decide⟩
  · intro now q h
    by_cases hm : isSameMonth q.lastReset now
    · simp [recordUsage, applyRollover, h, hm]
    · simp [recordUsage, applyRollover, h, hm]
  · intro now q h
    by_cases hd : isSameDay q.lastReset now
    · simp [recordUsage, applyRollover, h, hd]
    · simp [recordUsage, applyRollover, h, hd]

/-- C4 witness: recording with `lastReset` on the previous day (and previous
month) yields post-call counters of exactly 1. -/
theorem recordUsage_calendar_rollover_witness :
    (recordUsage ⟨2023, 1, 2, 1000⟩ ⟨1000, 30000, 100, 3000, ⟨2023, 1, 1, 86399000⟩⟩).currentDailyUsage = 1 ∧
    (recordUsage ⟨2023, 2, 1, 0⟩ ⟨1000, 30000, 50, 5000, ⟨2023, 1, 31, 0⟩⟩).currentMonthlyUsage = 1 :=
  ⟨recordUsage_calendar_rollover.1 ⟨2023, 1, 2, 1000⟩
      ⟨1000, 30000, 100, 3000, ⟨2023, 1, 1, 86399000⟩⟩ (by decide),
   recordUsage_calendar_rollover.2.1 ⟨2023, 2, 1, 0⟩
      ⟨1000, 30000, 50, 5000, ⟨2023, 1, 31, 0⟩⟩ (by decide)⟩

/-- C9: the store keys are exactly `rate_limit:<k>`, `api_quota:daily:<k>`,
`api_quota:monthly:<k>` and `api_quota:config:<k>`, byte for byte, and
within each namespace distinct caller keys map to distinct store keys. -/
theorem key_namespace_exact (k k1 k2 : String) :
    generateKey k = "rate_limit:" ++ k ∧
    getDailyKey k = "api_quota:daily:" ++ k ∧
    getMonthlyKey k = "api_quota:monthly:" ++ k ∧
    getConfigKey k = "api_quota:config:" ++ k ∧
    (k1 ≠ k2 →
      generateKey k1 ≠ generateKey k2 ∧
      getDailyKey k1 ≠ getDailyKey k2 ∧
      getMonthlyKey k1 ≠ getMonthlyKey k2 ∧
      getConfigKey k1 ≠ getConfigKey k2) := by
  refine ⟨rfl, rfl, rfl, rfl, fun hne => ⟨?_, ?_, ?_, ?_⟩⟩ <;>
    exact fun h => hne (string_append_left_cancel _ _ _ h)

/-- C9 witness: distinct caller keys give distinct store keys in all four
namespaces. -/
theorem key_namespace_exact_witness :
    generateKey "user-1" ≠ generateKey "user-2" ∧
    getDailyKey "user-1" ≠ getDailyKey "user-2" ∧
    getMonthlyKey "user-1" ≠ getMonthlyKey "user-2" ∧
    getConfigKey "user-1" ≠ getConfigKey "user-2" :=
  (key_namespace_exact "user-1" "user-1" "user-2").2.2.2.2 (by decide)

/- ## C6: usage statistics -/

/-- Store used by the spec's stats-determinism scenario: configs for "a"
(limit 1000, usage 100; monthly 30000/3000) and "b" (5000/2500;
150000/75000), nothing for any other key. -/
def exampleStatsStore : String → Option QuotaConfig := fun k =>
  if k = "a" then some ⟨1000, 30000, 100, 3000, ⟨2023, 1, 1, 0⟩⟩
  else if k = "b" then some ⟨5000, 150000, 2500, 75000, ⟨2023, 1, 1, 0⟩⟩
  else none

/-- The stats list is the image of the input key list, in order. -/
theorem getQuotaUsageStats_eq_map (store : String → Option QuotaConfig)
    (keys : List String) :
    getQuotaUsageStats store keys = keys.map (statsEntry store) := by
  induction keys with
  | nil => rfl
  | cons k ks ih => simp [getQuotaUsageStats, ih]

/-- C6: `getQuotaUsageStats` yields exactly one entry per input key, in input
order (position i of the output is the entry for position i of the input;
missing configs yield a 0-percent entry, never an error or a skip), each
percentage is `usage/limit*100` rounded to the nearest whole percent
(`roundPercent` is within half a percent of the exact ratio), and the spec's
example over keys ["a", "b", "c"] gives 10%, 50% and 0% in order. -/
theorem getQuotaUsageStats_entries (store : String → Option QuotaConfig)
    (keys : List String) (i u l : Nat) :
    (getQuotaUsageStats store keys).length = keys.length ∧
    (getQuotaUsageStats store keys)[i]? = (keys[i]?).map (statsEntry store) ∧
    (0 < l → 2 * l * roundPercent u l ≤ 200 * u + l ∧
             200 * u < 2 * l * roundPercent u l + l) ∧
    getQuotaUsageStats exampleStatsStore ["a", "b", "c"] =
      [⟨"a", 10, 10⟩, ⟨"b", 50, 50⟩, ⟨"c", 0, 0⟩] := by
  refine ⟨?_, ?_, ?_, by decide⟩
  · rw [getQuotaUsageStats_eq_map]
    simp
  · rw [getQuotaUsageStats_eq_map]
    simp [List.getElem?_map]
  · intro hl
    have h1 := Nat.div_add_mod (200 * u + l) (2 * l)
    have h2 : (200 * u + l) % (2 * l) < 2 * l :=
      Nat.mod_lt _ (by omega)
    unfold roundPercent
    generalize hX : 2 * l * ((200 * u + l) / (2 * l)) = X at h1 ⊢
    generalize hM : (200 * u + l) % (2 * l) = M at h1 h2
    omega

/-- C6 witness: the rounding bound at usage 100 of limit 1000 (10%). -/
theorem getQuotaUsageStats_entries_witness :
    0 < 1000 ∧
    (2 * 1000 * roundPercent 100 1000 ≤ 200 * 100 + 1000 ∧
     200 * 100 < 2 * 1000 * roundPercent 100 1000 + 1000) :=
  ⟨by decide,
   (getQuotaUsageStats_entries exampleStatsStore ["a"] 0 100 1000).2.2.1 (by decide)⟩

/- ## C8: resetQuota -/

/-- The daily and monthly counter keys of one caller never collide (their
fixed namespace strings have different lengths). -/
theorem daily_ne_monthly (k : String) : getDailyKey k ≠ getMonthlyKey k := by
  intro h
  have hlen := congrArg String.length h
  have l1 : ("api_quota:daily:" : String).length = 16 := rfl
  have l2 : ("api_quota:monthly:" : String).length = 18 := rfl
  rw [getDailyKey, getMonthlyKey, String.length_append, String.length_append,
    l1, l2] at hlen
  omega

/-- When the store is reachable, `resetQuota` deletes the monthly key after
the daily key and reports success. -/
theorem resetQuota_reachable :
    ∀ (s : KVStore) (k : String), s.reachable = true →
      resetQuota s k = .ok ⟨fun key =>
        if key = getMonthlyKey k then none
        else if key = getDailyKey k then none
        else s.data key, true⟩ := by
  intro ⟨dat, r⟩ k hr
  cases hr
  rfl

/-- When the store is unreachable, `resetQuota` swallows the error and
reports success with the store untouched. -/
theorem resetQuota_unreachable :
    ∀ (s : KVStore) (k : String), s.reachable = false →
      resetQuota s k = .ok s := by
  intro ⟨dat, r⟩ k hr
  cases hr
  rfl

/-- C8: `resetQuota` always resolves without throwing (it returns `.ok` for
every store state, reachable or not); when the store is reachable it removes
both the daily counter key and the monthly counter key; and a second call on
the resulting state (where the keys no longer exist) also completes without
error. -/
theorem resetQuota_swallows_errors (s : KVStore) (k : String) :
    (∃ s', resetQuota s k = .ok s') ∧
    (s.reachable = true → ∀ s', resetQuota s k = .ok s' →
        s'.data (getDailyKey k) = none ∧ s'.data (getMonthlyKey k) = none) ∧
    (∀ s1, resetQuota s k = .ok s1 → ∃ s2, resetQuota s1 k = .ok s2) := by
  refine ⟨?_, ?_, ?_⟩
  · by_cases hr : s.reachable = true
    · exact ⟨_, resetQuota_reachable s k hr⟩
    · exact ⟨s, resetQuota_unreachable s k (by simpa using hr)⟩
  · intro hr s' heq
    rw [resetQuota_reachable s k hr] at heq
    injection heq with heq
    subst heq
    refine ⟨?_, ?_⟩
    · simp [daily_ne_monthly k]
    · simp
  · intro s1 heq
    by_cases hr : s.reachable = true
    · rw [resetQuota_reachable s k hr] at heq
      injection heq with heq
      subst heq
      exact ⟨_, resetQuota_reachable _ k rfl⟩
    · have hf : s.reachable = false := by simpa using hr
      rw [resetQuota_unreachable s k hf] at heq
      injection heq with heq
      subst heq
      exact ⟨s, resetQuota_unreachable s k hf⟩

/-- A reachable store holding a counter under every key. -/
def demoStore : KVStore := ⟨fun _ => some 5, true⟩

/-- The demo store after `resetQuota` removed both counter keys. -/
def demoStoreAfter : KVStore :=
  ⟨fun key =>
    if key = getMonthlyKey "api-key-123" then none
    else if key = getDailyKey "api-key-123" then none
    else some 5, true⟩

/-- C8 witness: on the demo store, both counter keys are gone after reset. -/
theorem resetQuota_swallows_errors_witness :
    demoStoreAfter.data (getDailyKey "api-key-123") = none ∧
    demoStoreAfter.data (getMonthlyKey "api-key-123") = none :=
  (resetQuota_swallows_errors demoStore "api-key-123").2.1 rfl demoStoreAfter rfl

/- ## C10: pagination validation -/

/-- A validated page (present or defaulted) is at least 1. -/
theorem pageOk_getD {o : Option Int} (h : pageOk o = true) : 1 ≤ o.getD 1 := by
  cases o with
  | none => simp
  | some p => simpa [pageOk] using h

/-- A validated limit (present or defaulted) is at least 1. -/
theorem limitOk_getD_lower {o : Option Int} (h : limitOk o = true) :
    1 ≤ o.getD 10 := by
  cases o with
  | none => simp
  | some l =>
    simp only [limitOk, decide_eq_true_eq] at h
    simpa using h.1

/-- A validated limit (present or defaulted) is at most 100. -/
theorem limitOk_getD_upper {o : Option Int} (h : limitOk o = true) :
    o.getD 10 ≤ 100 := by
  cases o with
  | none => simp
  | some l =>
    simp only [limitOk, decide_eq_true_eq] at h
    simpa using h.2

/-- A validated sort order (present or defaulted) is "asc" or "desc". -/
theorem sortOrderOk_getD {o : Option String} (h : sortOrderOk o = true) :
    o.getD "desc" = "asc" ∨ o.getD "desc" = "desc" := by
  cases o with
  | none => simp
  | some s => simpa [sortOrderOk] using h

/-- C10: every `PaginationQueryDto` that passes validation has an integer
page ≥ 1 (1 when omitted), an integer limit in [1, 100] (10 when omitted),
and a sort order of "asc" or "desc" ("desc" when omitted); any supplied value
outside these bounds makes validation fail (`none`) rather than being
clamped. -/
theorem paginationQueryDto_validation (q : PaginationQueryDto) :
    (∀ v, validatePagination q = some v →
      1 ≤ v.page ∧ 1 ≤ v.limit ∧ v.limit ≤ 100 ∧
      (v.sortOrder = "asc" ∨ v.sortOrder = "desc") ∧
      (q.page = none → v.page = 1) ∧
      (q.limit = none → v.limit = 10) ∧
      (q.sortOrder = none → v.sortOrder = "desc")) ∧
    (∀ p, q.page = some p → p < 1 → validatePagination q = none) ∧
    (∀ l, q.limit = some l → (l < 1 ∨ 100 < l) → validatePagination q = none) ∧
    (∀ s, q.sortOrder = some s → s ≠ "asc" → s ≠ "desc" →
      validatePagination q = none) := by
  refine ⟨?_, ?_, ?_, ?_⟩
  · intro v hv
    have hg : (pageOk q.page && limitOk q.limit && sortOrderOk q.sortOrder) = true := by
      by_contra hng
      simp [validatePagination, hng] at hv
    unfold validatePagination at hv
    rw [if_pos hg] at hv
    injection hv with hv
    subst hv
    simp only [Bool.and_eq_true] at hg
    obtain ⟨⟨hp, hl⟩, hs⟩ := hg
    refine ⟨pageOk_getD hp, limitOk_getD_lower hl, limitOk_getD_upper hl,
      sortOrderOk_getD hs, ?_, ?_, ?_⟩
    · intro h; rw [h]; rfl
    · intro h; rw [h]; rfl
    · intro h; rw [h]; rfl
  · intro p hp hlt
    have hpf : pageOk q.page = false := by
      rw [hp]
      simp only [pageOk, decide_eq_false_iff_not]
      omega
    simp [validatePagination, hpf]
  · intro l hl hout
    have hlf : limitOk q.limit = false := by
      rw [hl]
      simp only [limitOk, decide_eq_false_iff_not]
      omega
    simp [validatePagination, hlf]
  · intro s hs hs1 hs2
    have hsf : sortOrderOk q.sortOrder = false := by
      rw [hs]
      simp [sortOrderOk, hs1, hs2]
    simp [validatePagination, hsf]

/-- C10 witness: a zero page, an oversized limit, and an unknown sort order
are each rejected rather than clamped. -/
theorem paginationQueryDto_validation_witness :
    validatePagination ⟨some 0, none, none, none⟩ = none ∧
    validatePagination ⟨none, some 101, none, none⟩ = none ∧
    validatePagination ⟨none, none, none, some "up"⟩ = none :=
  ⟨(paginationQueryDto_validation ⟨some 0, none, none, none⟩).2.1 0 rfl (by decide),
   (paginationQueryDto_validation ⟨none, some 101, none, none⟩).2.2.1 101 rfl
     (by decide),
   (paginationQueryDto_validation ⟨none, none, none, some "up"⟩).2.2.2 "up" rfl
     (by decide) (by decide)⟩

end PropChain
